import Mathlib

/-!
# Verification of `simple-proxy` (src/src/main.rs)

A shallow embedding of the request-handling pipeline built in `main` of
`src/src/main.rs`:

```
ServiceBuilder::new()
    .layer(TraceLayer::new_for_http())                      -- logging only
    .layer(ValidateRequestHeaderLayer::bearer(&auth_token))
    .layer(RemoveRequestHeaderLayer::exact("Authorization"))
    -- SetRequestHeaderLayer::overriding(user-agent, ...) is COMMENTED OUT
    .layer(RemoveRequestHeaderLayer::hop_by_hop())
    .layer(RemoveResponseHeaderLayer::hop_by_hop())
    .service_fn(http_plain_proxy)
```

Headers are modelled as ordered lists of (name, value) pairs with names
already normalized to lowercase, as the `http` crate stores them.  The
external HTTP client (`rama::http::client::HttpClient`) is modelled as an
oracle `Request → Option Response`: `some resp` is a successful upstream
round-trip, `none` is any client failure (dial, DNS, TLS, timeout, ...),
matching the single `Err(_)` arm of `http_plain_proxy`.

The `TraceLayer` (logging only) and the `BodyLimitLayer` (byte cap, not
touched by any claim) are omitted from the embedding.
-/

/-- HTTP headers: ordered name/value pairs, names lowercase. -/
abbrev Headers := List (String × String)

/-- An inbound HTTP request as seen by the service stack. -/
structure Request where
  method : String
  uri : String
  headers : Headers
  body : String
  deriving Repr, DecidableEq

/-- An HTTP response. -/
structure Response where
  status : Nat
  headers : Headers
  body : String
  deriving Repr, DecidableEq

/-- First value of the header with the given (lowercase) name, as
`HeaderMap::get` returns the first value. -/
def getHeader (headers : Headers) (name : String) : Option String :=
  (headers.find? (fun p => p.1 == name)).map Prod.snd

/-- Modelled from the spec: rama's `ValidateRequestHeaderLayer::bearer`
(library code, not under src/) accepts a request iff its `Authorization`
header value equals `Bearer <token>` byte for byte; an absent or different
value (malformed or wrong alike) is rejected. -/
def authorized (token : String) (req : Request) : Bool :=
  getHeader req.headers "authorization" == some ("Bearer " ++ token)

/-- Modelled from the spec: the fixed 401 response produced when the bearer
validation layer rejects a request; the spec fixes the body to the
non-informative string `unauthorized` for every rejected request. -/
def unauthorizedResponse : Response :=
  { status := 401, headers := [], body := "unauthorized" }

/-- Modelled from the spec: rama's `RemoveRequestHeaderLayer::exact`
(library code, not under src/) removes every header with the given name;
`main` instantiates it with `"Authorization"`. -/
def removeAuthorization (headers : Headers) : Headers :=
  headers.filter (fun p => p.1 != "authorization")

/-- Modelled from the spec: the fixed hop-by-hop header set stripped by
rama's `hop_by_hop` removal layers (library code, not under src/). -/
def hopByHopNames : List String :=
  ["connection", "keep-alive", "proxy-authenticate", "proxy-authorization",
   "te", "trailer", "transfer-encoding", "upgrade"]

/-- ASCII lowercasing of one character, as `HeaderName` parsing normalizes
header names. -/
def asciiLower (c : Char) : Char :=
  if 65 ≤ c.toNat ∧ c.toNat ≤ 90 then Char.ofNat (c.toNat + 32) else c

/-- Linear whitespace accepted around `Connection` value tokens. -/
def isLws (c : Char) : Bool := c == ' ' || c == '\t'

/-- Drop leading and trailing linear whitespace from a character list. -/
def trimChars (l : List Char) : List Char :=
  ((l.dropWhile isLws).reverse.dropWhile isLws).reverse

/-- Split a character list at commas. -/
def splitCommas : List Char → List (List Char)
  | [] => [[]]
  | c :: cs =>
    if c == ',' then [] :: splitCommas cs
    else
      match splitCommas cs with
      | [] => [[c]]
      | t :: ts => (c :: t) :: ts

/-- One `Connection` value token turned into a normalized header name:
trimmed of surrounding whitespace and lowercased. -/
def connectionToken (l : List Char) : String :=
  String.mk ((trimChars l).map asciiLower)

/-- Modelled from the spec: the header names listed in `Connection` header
values (comma-separated tokens, trimmed, lowercased), which the hop-by-hop
stripping removes in addition to the fixed set. -/
def connectionNamed (headers : Headers) : List String :=
  (headers.filter (fun p => p.1 == "connection")).flatMap
    (fun p => (splitCommas p.2.toList).map connectionToken)

/-- Modelled from the spec: rama's `RemoveRequestHeaderLayer::hop_by_hop` /
`RemoveResponseHeaderLayer::hop_by_hop` (library code, not under src/):
drop the fixed hop-by-hop set plus any header named in a `Connection`
value.  The same function serves both directions, as in `main` lines
60-61. -/
def sanitizeHeaders (headers : Headers) : Headers :=
  headers.filter
    (fun p => !(hopByHopNames.contains p.1)
      && !((connectionNamed headers).contains (p.1)))

/-- The outbound header transformation of the request path, in layer order
from `main`: first `RemoveRequestHeaderLayer::exact("Authorization")`
(line 55), then `RemoveRequestHeaderLayer::hop_by_hop()` (line 60). -/
def outboundHeaders (headers : Headers) : Headers :=
  sanitizeHeaders (removeAuthorization headers)

/-- The request handed to the HTTP client by the layered service: same
method, target and body, headers rewritten by the request layers. -/
def outboundRequest (req : Request) : Request :=
  { req with headers := outboundHeaders req.headers }

/-- `RemoveResponseHeaderLayer::hop_by_hop()` (line 61) applied to a
response travelling back towards the client. -/
def sanitizeResponse (resp : Response) : Response :=
  { resp with headers := sanitizeHeaders resp.headers }

/-- `http_plain_proxy` from `main.rs` lines 100-115: serve the request
through the HTTP client; on `Ok(resp)` return the response unchanged, on
any `Err` log it and return `500 Internal Server Error` with an empty
body.  Its Rust error type is `Infallible`, so the embedding is a total
function into `Response`. -/
def http_plain_proxy (client : Request → Option Response) (req : Request) :
    Response :=
  match client req with
  | some resp => resp
  | none => { status := 500, headers := [], body := "" }

/-- The composed service of `main` lines 52-62 handling one request.
The bearer validation layer is outermost (after logging): a rejected
request short-circuits to the fixed 401 response without reaching the
inner layers or `http_plain_proxy`.  An accepted request flows through
the request-header layers into `http_plain_proxy`, and the resulting
response flows back through the response hop-by-hop removal layer.
There is no branching on the request method: every accepted request,
CONNECT included, takes this single plain-forward path. -/
def handle (token : String) (client : Request → Option Response)
    (req : Request) : Response :=
  if authorized token req then
    sanitizeResponse (http_plain_proxy client (outboundRequest req))
  else
    unauthorizedResponse

/-- Instrumented variant of `handle` that also counts how many times the
authentication predicate is evaluated while handling the request; it
mirrors `handle`, whose single validation layer (line 54) evaluates the
predicate exactly once per request. -/
def handleInstr (token : String) (client : Request → Option Response)
    (req : Request) : Response × Nat :=
  let decision := authorized token req
  if decision then
    (sanitizeResponse (http_plain_proxy client (outboundRequest req)), 1)
  else
    (unauthorizedResponse, 1)

/-- The default outbound user agent configured in `main.rs` line 40. -/
def defaultUserAgent : String :=
  "Instagram 310.0.0.37.328 Android (31/12; 440dpi; 1080x2180; Xiaomi; M2007J3SG; apollo; qcom; de_DE; 543594164)"

/-! ## Concrete fixtures used by witnesses and counterexamples -/

/-- A request presenting no credential at all. -/
def reqNoAuth : Request :=
  { method := "GET", uri := "http://example.com/",
    headers := [("user-agent", "curl/8.4.0")], body := "" }

/-- A request presenting a wrong bearer token. -/
def reqWrongTok : Request :=
  { method := "GET", uri := "http://example.com/",
    headers := [("authorization", "Bearer wrong")], body := "" }

/-- A correctly authenticated plain request carrying a client-chosen
user agent. -/
def reqOk : Request :=
  { method := "GET", uri := "http://example.com/",
    headers := [("authorization", "Bearer tok"),
                ("user-agent", "curl/8.4.0")], body := "" }

/-- A correctly authenticated CONNECT request with a well-formed
host:port authority. -/
def reqConnect : Request :=
  { method := "CONNECT", uri := "example.com:443",
    headers := [("authorization", "Bearer tok")], body := "" }

/-- An upstream response (the 204-no-body scenario of the spec). -/
def upstream204 : Response :=
  { status := 204, headers := [("content-type", "text/plain")], body := "" }

/-- A client oracle whose upstream always answers `upstream204`. -/
def clientSome : Request → Option Response := fun _ => some upstream204

/-- A client oracle whose upstream is unreachable: every request fails
(dial, DNS, TLS or timeout — the model does not distinguish them). -/
def clientNone : Request → Option Response := fun _ => none

/-- A client oracle answering 404 to everything, used to observe which
path a CONNECT request takes. -/
def client404 : Request → Option Response :=
  fun _ => some { status := 404, headers := [], body := "not found" }

example : authorized "tok" reqOk = true := by decide

example : authorized "tok" reqNoAuth = false := by decide

example :
    sanitizeHeaders
      [("connection", " X-Foo , close"), ("x-foo", "1"), ("host", "a"),
       ("te", "trailers")] = [("host", "a")] := by decide

/-! ## Helper lemmas -/

/-- Membership characterization of `sanitizeHeaders`: a header survives iff
its name is neither in the fixed hop-by-hop set nor named in a
`Connection` value of the input. -/
theorem mem_sanitizeHeaders (h : Headers) (p : String × String) :
    p ∈ sanitizeHeaders h ↔
      p ∈ h ∧ p.1 ∉ hopByHopNames ∧ p.1 ∉ connectionNamed h := by
  simp [sanitizeHeaders, List.mem_filter, and_assoc]

/-- A sanitized header list retains no `Connection` header, hence names no
further headers to strip. -/
theorem connectionNamed_sanitize (h : Headers) :
    connectionNamed (sanitizeHeaders h) = [] := by
  have hnil : (sanitizeHeaders h).filter (fun p => p.1 == "connection")
      = [] := by
    rw [List.filter_eq_nil_iff]
    intro p hp
    have hmem := (mem_sanitizeHeaders h p).mp hp
    have hne : p.1 ≠ "connection" := by
      intro e
      exact hmem.2.1 (by rw [e]; simp [hopByHopNames])
    simpa using hne
  unfold connectionNamed
  rw [hnil]
  rfl

/-! ## Claims -/

/-- C1: a request whose credential is absent or wrong is answered with the
fixed 401 response, the answer is independent of the upstream client (so
nothing is forwarded and no tunnel is dialed), and the authentication
predicate is evaluated exactly once for the request. -/
theorem auth_short_circuit (token : String)
    (client client2 : Request → Option Response) (req : Request)
    (h : authorized token req = false) :
    handle token client req = unauthorizedResponse ∧
    handle token client req = handle token client2 req ∧
    (handleInstr token client req).2 = 1 := by
  simp [handle, handleInstr, h]

/-- Witness for C1 at a concrete unauthenticated request and two distinct
client oracles. -/
theorem auth_short_circuit_witness :
    authorized "tok" reqNoAuth = false ∧
    (handle "tok" clientSome reqNoAuth = unauthorizedResponse ∧
     handle "tok" clientSome reqNoAuth = handle "tok" clientNone reqNoAuth ∧
     (handleInstr "tok" clientSome reqNoAuth).2 = 1) :=
  ⟨by decide, auth_short_circuit "tok" clientSome clientNone reqNoAuth (by decide)⟩

/-- C2 counterexample: on an unreachable upstream the code returns 500, not
the 502 the claim states, at a concrete authenticated request. -/
theorem upstream_unreachable_gives_500 :
    authorized "tok" reqOk = true ∧
    (handle "tok" clientNone reqOk).status = 500 ∧
    (handle "tok" clientNone reqOk).status ≠ 502 := by decide

/-- C2 (amended): for an authenticated request, a successful round-trip
returns the upstream response with its status unchanged (only response
hop-by-hop headers removed), and an unreachable upstream yields status 500
with an empty body and no headers, whatever the failure kind. -/
theorem plain_forward_status (token : String)
    (client : Request → Option Response) (req : Request)
    (h : authorized token req = true) :
    (handle token client req =
      match client (outboundRequest req) with
      | some resp => sanitizeResponse resp
      | none => { status := 500, headers := [], body := "" }) ∧
    (∀ r : Response, (sanitizeResponse r).status = r.status) := by
  refine ⟨?_, fun r => rfl⟩
  simp only [handle, h, if_true, http_plain_proxy]
  cases client (outboundRequest req) <;> rfl

/-- Witness for C2 (amended): concrete success and failure cases. -/
theorem plain_forward_status_witness :
    (handle "tok" clientSome reqOk).status = 204 ∧
    handle "tok" clientNone reqOk = { status := 500, headers := [], body := "" } := by
  constructor
  · rw [(plain_forward_status "tok" clientSome reqOk (by decide)).1]
    rfl
  · rw [(plain_forward_status "tok" clientNone reqOk (by decide)).1]
    rfl

/-- C3: the `SetRequestHeaderLayer::overriding(user-agent, ...)` layer is
commented out in `main` (lines 56-59), so the client-supplied `User-Agent`
reaches the upstream unchanged and differs from the configured value,
although the module documentation promises a custom user agent. -/
theorem user_agent_not_overridden :
    getHeader (outboundRequest reqOk).headers "user-agent"
      = some "curl/8.4.0" ∧
    getHeader reqOk.headers "user-agent" = some "curl/8.4.0" ∧
    "curl/8.4.0" ≠ defaultUserAgent := by decide

/-- C4 counterexample: a concrete authenticated CONNECT request with a
well-formed authority is answered by the plain-forward path (here the
client oracle's 404), not by a 200 Connection Established handshake. -/
theorem connect_not_tunneled :
    authorized "tok" reqConnect = true ∧
    reqConnect.method = "CONNECT" ∧
    handle "tok" client404 reqConnect
      = { status := 404, headers := [], body := "not found" } ∧
    (handle "tok" client404 reqConnect).status ≠ 200 := by decide

/-- C4 (amended): an authenticated CONNECT request takes exactly the same
plain-forward path as any other method — it is handed (method intact) to
`http_plain_proxy`, and no tunnel engine exists in the pipeline. -/
theorem connect_plain_forwarded (token : String)
    (client : Request → Option Response) (req : Request)
    (hauth : authorized token req = true) (hm : req.method = "CONNECT") :
    handle token client req
      = sanitizeResponse (http_plain_proxy client (outboundRequest req)) ∧
    (outboundRequest req).method = "CONNECT" := by
  refine ⟨?_, hm⟩
  simp [handle, hauth]

/-- Witness for C4 (amended) at the concrete CONNECT request. -/
theorem connect_plain_forwarded_witness :
    handle "tok" client404 reqConnect
      = sanitizeResponse (http_plain_proxy client404 (outboundRequest reqConnect)) ∧
    (outboundRequest reqConnect).method = "CONNECT" :=
  connect_plain_forwarded "tok" client404 reqConnect (by decide) (by decide)

/-- C5: every rejected request — credential absent, malformed or merely
wrong — receives one and the same response, with status 401 and the fixed
body `unauthorized`. -/
theorem unauthorized_uniform_response (token : String)
    (client : Request → Option Response) (req req2 : Request)
    (h : authorized token req = false) (h2 : authorized token req2 = false) :
    handle token client req = handle token client req2 ∧
    (handle token client req).status = 401 ∧
    (handle token client req).body = "unauthorized" := by
  simp [handle, h, h2, unauthorizedResponse]

/-- Witness for C5: an absent credential and a wrong token produce the
identical 401 "unauthorized" response. -/
theorem unauthorized_uniform_response_witness :
    handle "tok" clientSome reqNoAuth = handle "tok" clientSome reqWrongTok ∧
    (handle "tok" clientSome reqNoAuth).status = 401 ∧
    (handle "tok" clientSome reqNoAuth).body = "unauthorized" :=
  unauthorized_uniform_response "tok" clientSome reqNoAuth reqWrongTok
    (by decide) (by decide)

/-- C6: the sanitizer keeps a header iff its name is outside the fixed
hop-by-hop set and not named in a `Connection` value, and the pipeline
applies this same stripping to the outbound request headers (after the
`Authorization` removal) and to the inbound response headers. -/
theorem sanitize_exactly_hop_by_hop :
    (∀ (h : Headers) (p : String × String),
      p ∈ sanitizeHeaders h ↔
        p ∈ h ∧ p.1 ∉ hopByHopNames ∧ p.1 ∉ connectionNamed h) ∧
    (∀ h : Headers, outboundHeaders h = sanitizeHeaders (removeAuthorization h)) ∧
    (∀ r : Response, (sanitizeResponse r).headers = sanitizeHeaders r.headers) :=
  ⟨mem_sanitizeHeaders, fun _ => rfl, fun _ => rfl⟩

/-- Witness for C6 on a concrete header list with a `Connection`-named
header. -/
theorem sanitize_exactly_hop_by_hop_witness :
    ("host", "a") ∈ sanitizeHeaders
      [("connection", " X-Foo , close"), ("x-foo", "1"), ("host", "a")] ∧
    ("x-foo", "1") ∉ sanitizeHeaders
      [("connection", " X-Foo , close"), ("x-foo", "1"), ("host", "a")] := by
  constructor
  · exact (sanitize_exactly_hop_by_hop.1 _ _).mpr (by decide)
  · intro hc
    have hmem := (sanitize_exactly_hop_by_hop.1 _ _).mp hc
    exact absurd hmem (by decide)

/-- C7: header sanitization is idempotent: applying `sanitizeHeaders`
twice equals applying it once (the same function serves both the request
and the response direction in `main`). -/
theorem sanitize_idempotent (h : Headers) :
    sanitizeHeaders (sanitizeHeaders h) = sanitizeHeaders h := by
  show (sanitizeHeaders h).filter
      (fun p => !(hopByHopNames.contains p.1)
        && !((connectionNamed (sanitizeHeaders h)).contains p.1))
    = sanitizeHeaders h
  rw [connectionNamed_sanitize h]
  apply List.filter_eq_self.mpr
  intro p hp
  have hmem := (mem_sanitizeHeaders h p).mp hp
  simp [hmem.2.1]

/-- C8: every request forwarded upstream has had its `Authorization`
header (the proxy credential) removed by the request layers, so the
configured secret is never replayed to a target origin. -/
theorem authorization_stripped (req : Request) :
    getHeader (outboundRequest req).headers "authorization" = none := by
  unfold getHeader
  rw [Option.map_eq_none', List.find?_eq_none]
  intro p hp
  have h1 : p ∈ removeAuthorization req.headers :=
    ((mem_sanitizeHeaders _ p).mp hp).1
  have h2 := (List.mem_filter.mp h1).2
  simpa [bne] using h2

/-- C10: `http_plain_proxy` is total (its Rust error type is
`Infallible`): a successful client round-trip is returned as-is, and any
client failure is mapped to status 500 with an empty body and no headers,
so no error text reaches the response body. -/
theorem http_plain_proxy_infallible (client : Request → Option Response)
    (req : Request) :
    (∀ r : Response, client req = some r → http_plain_proxy client req = r) ∧
    (client req = none →
      http_plain_proxy client req = { status := 500, headers := [], body := "" }) := by
  constructor
  · intro r hr
    simp [http_plain_proxy, hr]
  · intro h
    simp [http_plain_proxy, h]

/-- Witness for C10: concrete failing and succeeding clients. -/
theorem http_plain_proxy_infallible_witness :
    http_plain_proxy clientNone reqOk = { status := 500, headers := [], body := "" } ∧
    http_plain_proxy clientSome reqOk = upstream204 :=
  ⟨(http_plain_proxy_infallible clientNone reqOk).2 rfl,
   (http_plain_proxy_infallible clientSome reqOk).1 upstream204 rfl⟩
